import Mathlib

/-!
Shallow embedding of the epoll-cpp reactor (src/Epoll.h, src/Epoll.cpp).

The reactor state is the registry `monitoredFds` (descriptor → entry) plus the
immutable edge-triggered flag.  The kernel event-queue handle and the scratch
event buffer carry no registry semantics and are not part of the state.

Callbacks (`std::function<void(int)>`) may mutate the reactor through the
captured reference, so they are modelled by an abstract handler type `H`
together with an interpretation `run : H → Int → Epoll H → Epoll H` supplied
to the dispatch loop.  Kernel calls (`epoll_ctl`, `fcntl`) are modelled by a
trace of `KernelCall` values and a success oracle `K : KernelCall → Bool`;
a failing call corresponds to the C++ function throwing, which leaves the
object in the state it had at the throw point, so operations return the
resulting state, the trace of issued calls and an optional error.
-/

/-- Numeric values of the event flags from `<sys/epoll.h>`. -/
def EPOLLIN : Nat := 1

def EPOLLPRI : Nat := 2

def EPOLLOUT : Nat := 4

def EPOLLERR : Nat := 8

def EPOLLHUP : Nat := 16

def EPOLLRDHUP : Nat := 8192

def EPOLLET : Nat := 2147483648

/-- `allEventTypes` from Epoll.h line 8: the six recognized categories, in the
order the C++ loops iterate them. -/
def allEventTypes : List Nat := [EPOLLIN, EPOLLOUT, EPOLLRDHUP, EPOLLPRI, EPOLLERR, EPOLLHUP]

/-- `MonitoredDescriptor` from Epoll.h: one optional callback slot per
category, the `isInitialized` flag and the immutable descriptor. -/
structure MonitoredDescriptor (H : Type) where
  isInitialized : Bool := false
  monitoredFd : Int
  IN_handler : Option H := none
  OUT_handler : Option H := none
  RDHUP_handler : Option H := none
  PRI_handler : Option H := none
  ERR_handler : Option H := none
  HUP_handler : Option H := none
  deriving DecidableEq

/-- The `MonitoredDescriptor(int monitoredFd)` constructor: all six slots
empty, `isInitialized = false`. -/
def MonitoredDescriptor.new (H : Type) (fd : Int) : MonitoredDescriptor H :=
  { monitoredFd := fd }

/-- `MonitoredDescriptor::hasHandler` (Epoll.cpp 185-202): a switch on the
exact value of `eventType`; any value that is not one of the six flags falls
to the default branch and reports `false`. -/
def MonitoredDescriptor.hasHandler {H : Type} (md : MonitoredDescriptor H) (eventType : Nat) : Bool :=
  if eventType = EPOLLIN then md.IN_handler.isSome
  else if eventType = EPOLLOUT then md.OUT_handler.isSome
  else if eventType = EPOLLRDHUP then md.RDHUP_handler.isSome
  else if eventType = EPOLLPRI then md.PRI_handler.isSome
  else if eventType = EPOLLERR then md.ERR_handler.isSome
  else if eventType = EPOLLHUP then md.HUP_handler.isSome
  else false

/-- `MonitoredDescriptor::setHandler` (Epoll.cpp 204-227): a switch on the
exact value of `eventType`; the default branch returns without touching any
slot.  `none` models the `nullptr` callback used to clear a slot. -/
def MonitoredDescriptor.setHandler {H : Type} (md : MonitoredDescriptor H) (eventType : Nat)
    (handler : Option H) : MonitoredDescriptor H :=
  if eventType = EPOLLIN then { md with IN_handler := handler }
  else if eventType = EPOLLOUT then { md with OUT_handler := handler }
  else if eventType = EPOLLRDHUP then { md with RDHUP_handler := handler }
  else if eventType = EPOLLPRI then { md with PRI_handler := handler }
  else if eventType = EPOLLERR then { md with ERR_handler := handler }
  else if eventType = EPOLLHUP then { md with HUP_handler := handler }
  else md

/-- `MonitoredDescriptor::getHandler` (Epoll.cpp 229-246); the default branch
throws in C++, modelled by `none`. -/
def MonitoredDescriptor.getHandler {H : Type} (md : MonitoredDescriptor H) (eventType : Nat) :
    Option H :=
  if eventType = EPOLLIN then md.IN_handler
  else if eventType = EPOLLOUT then md.OUT_handler
  else if eventType = EPOLLRDHUP then md.RDHUP_handler
  else if eventType = EPOLLPRI then md.PRI_handler
  else if eventType = EPOLLERR then md.ERR_handler
  else if eventType = EPOLLHUP then md.HUP_handler
  else none

/-- The registry `std::unordered_map<int, MonitoredDescriptor>` as an
association list with unique keys; `lookupKey` models `count`/`at`. -/
def lookupKey {H : Type} : List (Int × MonitoredDescriptor H) → Int → Option (MonitoredDescriptor H)
  | [], _ => none
  | p :: rest, fd => if p.1 = fd then some p.2 else lookupKey rest fd

/-- `_monitoredFds.count(fd) != 0`. -/
def containsKey {H : Type} (l : List (Int × MonitoredDescriptor H)) (fd : Int) : Bool :=
  (lookupKey l fd).isSome

/-- `_monitoredFds.erase(fd)`. -/
def eraseKey {H : Type} (l : List (Int × MonitoredDescriptor H)) (fd : Int) :
    List (Int × MonitoredDescriptor H) :=
  l.filter (fun p => p.1 ≠ fd)

/-- In-place mutation of the entry obtained from `_monitoredFds.at(fd)`. -/
def updateKey {H : Type} (l : List (Int × MonitoredDescriptor H)) (fd : Int)
    (md : MonitoredDescriptor H) : List (Int × MonitoredDescriptor H) :=
  l.map (fun p => if p.1 = fd then (fd, md) else p)

/-- `_monitoredFds.try_emplace(fd, fd)`: inserts a fresh entry only when the
key is absent. -/
def tryEmplace {H : Type} (l : List (Int × MonitoredDescriptor H)) (fd : Int) :
    List (Int × MonitoredDescriptor H) :=
  if containsKey l fd then l else l ++ [(fd, MonitoredDescriptor.new H fd)]

/-- Number of entries stored under key `fd`. -/
def countKey {H : Type} (l : List (Int × MonitoredDescriptor H)) (fd : Int) : Nat :=
  (l.filter (fun p => p.1 = fd)).length

/-- The kernel calls the reactor can issue. -/
inductive KernelCall where
  | ctlAdd : Int → Nat → KernelCall
  | ctlMod : Int → Nat → KernelCall
  | ctlDel : Int → KernelCall
  | setNonBlocking : Int → KernelCall
  deriving DecidableEq

/-- The exceptions the modelled operations can throw. -/
inductive EpollError where
  | notRegistered : EpollError
  | ctlAddFailed : EpollError
  | ctlModFailed : EpollError
  | setNonBlockingFailed : EpollError
  | atFailed : EpollError
  deriving DecidableEq

/-- The `Epoll` reactor state: the registry and the construction-time mode
flag (`_monitoredFds`, `_isEdgeTriggered`). -/
structure Epoll (H : Type) where
  monitoredFds : List (Int × MonitoredDescriptor H)
  isEdgeTriggered : Bool
  deriving DecidableEq

/-- Result of an operation that can issue kernel calls and throw: the state
of the object at return or at the throw point, the trace of issued kernel
calls, and the error when the operation threw. -/
structure OpResult (H : Type) where
  state : Epoll H
  calls : List KernelCall
  error : Option EpollError
  deriving DecidableEq

/-- `Epoll::addDescriptor` (Epoll.cpp 22-28): `try_emplace`, then switch the
descriptor to non-blocking mode when edge-triggered (that `fcntl` pair can
fail and throw, after the registry insertion already happened). -/
def Epoll.addDescriptor {H : Type} (K : KernelCall → Bool) (st : Epoll H) (fd : Int) :
    OpResult H :=
  let st' : Epoll H := { st with monitoredFds := tryEmplace st.monitoredFds fd }
  if st.isEdgeTriggered then
    if K (.setNonBlocking fd) then ⟨st', [.setNonBlocking fd], none⟩
    else ⟨st', [.setNonBlocking fd], some .setNonBlockingFailed⟩
  else ⟨st', [], none⟩

/-- `Epoll::removeDescriptor` (Epoll.cpp 30-35): when registered, issue the
best-effort `EPOLL_CTL_DEL` (errors ignored, so no oracle is consulted) and
erase the entry; otherwise a no-op. -/
def Epoll.removeDescriptor {H : Type} (st : Epoll H) (fd : Int) :
    Epoll H × List KernelCall :=
  if containsKey st.monitoredFds fd then
    ({ st with monitoredFds := eraseKey st.monitoredFds fd }, [.ctlDel fd])
  else (st, [])

/-- The `resultingEvents` computation of `Epoll::_reloadEventHandlers`
(Epoll.cpp 119-139), with the `firstEvt` flag carried through the fold. -/
def reloadMask {H : Type} (et : Bool) (md : MonitoredDescriptor H) : Nat :=
  let p := allEventTypes.foldl
    (fun acc evt =>
      if md.hasHandler evt then
        if acc.2 then (evt, false) else (acc.1 ||| evt, false)
      else acc)
    ((0 : Nat), true)
  if et then (if p.2 then EPOLLET else p.1 ||| EPOLLET) else p.1

/-- `Epoll::_reloadEventHandlers` (Epoll.cpp 118-148): recompute the mask,
then `EPOLL_CTL_MOD` when already initialized, else `EPOLL_CTL_ADD`;
`isInitialized` is set only after the add call succeeded (a throw skips it). -/
def Epoll.reloadEventHandlers {H : Type} (K : KernelCall → Bool) (et : Bool)
    (md : MonitoredDescriptor H) :
    MonitoredDescriptor H × List KernelCall × Option EpollError :=
  let ev := reloadMask et md
  if md.isInitialized then
    if K (.ctlMod md.monitoredFd ev) then (md, [.ctlMod md.monitoredFd ev], none)
    else (md, [.ctlMod md.monitoredFd ev], some .ctlModFailed)
  else
    if K (.ctlAdd md.monitoredFd ev) then
      ({ md with isInitialized := true }, [.ctlAdd md.monitoredFd ev], none)
    else (md, [.ctlAdd md.monitoredFd ev], some .ctlAddFailed)

/-- The handler-installation loop of `Epoll::addEventHandler`
(Epoll.cpp 73-78): for every category `evt` with `eventType & evt` nonzero,
install the same callback in that category's slot. -/
def applyMaskHandlers {H : Type} (eventType : Nat) (h : H) (md : MonitoredDescriptor H) :
    MonitoredDescriptor H :=
  allEventTypes.foldl
    (fun m evt => if eventType &&& evt ≠ 0 then m.setHandler evt (some h) else m) md

/-- The handler-clearing loop of `Epoll::removeEventHandler`
(Epoll.cpp 88-94): for every category, when `hasHandler(eventType & evt)`
holds, clear the slot via `setHandler(eventType & evt, nullptr)`. -/
def clearMaskHandlers {H : Type} (eventType : Nat) (md : MonitoredDescriptor H) :
    MonitoredDescriptor H :=
  allEventTypes.foldl
    (fun m evt =>
      if m.hasHandler (eventType &&& evt) then m.setHandler (eventType &&& evt) none else m) md

/-- `Epoll::addEventHandler` (Epoll.cpp 65-82): precondition check, install
the callback for every category in the mask, then reload the kernel
subscription.  The handler slots are mutated in place before the kernel call,
so a failing reload leaves them installed. -/
def Epoll.addEventHandler {H : Type} (K : KernelCall → Bool) (st : Epoll H) (fd : Int)
    (eventType : Nat) (h : H) : OpResult H :=
  match lookupKey st.monitoredFds fd with
  | none => ⟨st, [], some .notRegistered⟩
  | some md =>
    let md1 := applyMaskHandlers eventType h md
    let r := Epoll.reloadEventHandlers K st.isEdgeTriggered md1
    ⟨{ st with monitoredFds := updateKey st.monitoredFds fd r.1 }, r.2.1, r.2.2⟩

/-- `Epoll::removeEventHandler` (Epoll.cpp 84-98): `at` throws
`std::out_of_range` for an unregistered descriptor; otherwise clear every
category in the mask and reload the kernel subscription. -/
def Epoll.removeEventHandler {H : Type} (K : KernelCall → Bool) (st : Epoll H) (fd : Int)
    (eventType : Nat) : OpResult H :=
  match lookupKey st.monitoredFds fd with
  | none => ⟨st, [], some .atFailed⟩
  | some md =>
    let md1 := clearMaskHandlers eventType md
    let r := Epoll.reloadEventHandlers K st.isEdgeTriggered md1
    ⟨{ st with monitoredFds := updateKey st.monitoredFds fd r.1 }, r.2.1, r.2.2⟩

/-- The inner category loop of `Epoll::waitForEvents` (Epoll.cpp 46-56) for
one reported `(fd, events)` pair.  Before every step the registry membership
of `fd` is re-checked; when it fails the C++ code executes `return`, which
aborts the whole `waitForEvents` call — modelled by the `true` flag.
A handler invocation is `run h fd st`. -/
def Epoll.dispatchLoop {H : Type} (run : H → Int → Epoll H → Epoll H) (fd : Int) (events : Nat) :
    List Nat → Epoll H → Epoll H × Bool
  | [], st => (st, false)
  | evt :: rest, st =>
    match lookupKey st.monitoredFds fd with
    | none => (st, true)
    | some md =>
      if md.hasHandler (events &&& evt) then
        match md.getHandler (events &&& evt) with
        | some h => Epoll.dispatchLoop run fd events rest (run h fd st)
        | none => Epoll.dispatchLoop run fd events rest st
      else Epoll.dispatchLoop run fd events rest st

/-- `Epoll::waitForEvents` (Epoll.cpp 37-63): the reported batch is the list
of `(fd, events)` pairs delivered by `epoll_wait`.  For each pair run the
category loop; on its early `return` the remaining pairs are abandoned.
Otherwise, when the reported bits include `EPOLLRDHUP | EPOLLHUP`, the
descriptor is removed automatically, and the next pair is processed. -/
def Epoll.waitForEvents {H : Type} (run : H → Int → Epoll H → Epoll H) :
    List (Int × Nat) → Epoll H → Epoll H
  | [], st => st
  | (fd, events) :: rest, st =>
    let r := Epoll.dispatchLoop run fd events allEventTypes st
    if r.2 then r.1
    else
      let st' := if events &&& (EPOLLRDHUP ||| EPOLLHUP) ≠ 0
        then (r.1.removeDescriptor fd).1 else r.1
      Epoll.waitForEvents run rest st'

/-! ## Registry helper lemmas -/

theorem lookupKey_none_of_not_contains {H : Type} (l : List (Int × MonitoredDescriptor H))
    (fd : Int) (h : containsKey l fd = false) : lookupKey l fd = none := by
  cases he : lookupKey l fd with
  | none => rfl
  | some md => unfold containsKey at h; rw [he] at h; simp at h

theorem lookupKey_eraseKey {H : Type} (l : List (Int × MonitoredDescriptor H)) (fd : Int) :
    lookupKey (eraseKey l fd) fd = none := by
  induction l with
  | nil => rfl
  | cons p rest ih =>
    by_cases h : p.1 = fd
    · have he : eraseKey (p :: rest) fd = eraseKey rest fd := by
        simp [eraseKey, h]
      rw [he]
      exact ih
    · have he : eraseKey (p :: rest) fd = p :: eraseKey rest fd := by
        simp [eraseKey, h]
      rw [he]
      unfold lookupKey
      rw [if_neg h]
      exact ih

theorem lookupKey_removeDescriptor {H : Type} (st : Epoll H) (fd : Int) :
    lookupKey ((st.removeDescriptor fd).1).monitoredFds fd = none := by
  unfold Epoll.removeDescriptor
  by_cases h : containsKey st.monitoredFds fd
  · rw [if_pos h]
    exact lookupKey_eraseKey _ _
  · rw [if_neg h]
    exact lookupKey_none_of_not_contains _ _ (by simpa using h)

theorem lookupKey_updateKey {H : Type} (l : List (Int × MonitoredDescriptor H)) (fd : Int)
    (md md' : MonitoredDescriptor H) (h : lookupKey l fd = some md) :
    lookupKey (updateKey l fd md') fd = some md' := by
  induction l with
  | nil => simp [lookupKey] at h
  | cons p rest ih =>
    by_cases hp : p.1 = fd
    · simp [updateKey, lookupKey, hp]
    · simp only [lookupKey, hp, if_neg hp] at h
      simpa [updateKey, lookupKey, hp] using ih h

theorem lookupKey_append_absent {H : Type} (l : List (Int × MonitoredDescriptor H)) (fd : Int)
    (md : MonitoredDescriptor H) (h : lookupKey l fd = none) :
    lookupKey (l ++ [(fd, md)]) fd = some md := by
  induction l with
  | nil => simp [lookupKey]
  | cons p rest ih =>
    by_cases hp : p.1 = fd
    · simp [lookupKey, hp] at h
    · simp only [lookupKey, if_neg hp] at h
      rw [List.cons_append]
      unfold lookupKey
      rw [if_neg hp]
      exact ih h

theorem countKey_of_not_contains {H : Type} (l : List (Int × MonitoredDescriptor H)) (fd : Int)
    (h : containsKey l fd = false) : countKey l fd = 0 := by
  induction l with
  | nil => rfl
  | cons p rest ih =>
    by_cases hp : p.1 = fd
    · simp only [containsKey, lookupKey, if_pos hp] at h
      simp at h
    · have h' : containsKey rest fd = false := by
        simp only [containsKey, lookupKey, if_neg hp] at h
        exact h
      simpa [countKey, List.filter, hp] using ih h'

theorem tryEmplace_of_contains {H : Type} (l : List (Int × MonitoredDescriptor H)) (fd : Int)
    (h : containsKey l fd = true) : tryEmplace l fd = l := by
  simp [tryEmplace, h]

theorem tryEmplace_of_not_contains {H : Type} (l : List (Int × MonitoredDescriptor H)) (fd : Int)
    (h : containsKey l fd = false) :
    tryEmplace l fd = l ++ [(fd, MonitoredDescriptor.new H fd)] := by
  unfold tryEmplace
  rw [if_neg (by simp [h])]

theorem countKey_tryEmplace_absent {H : Type} (l : List (Int × MonitoredDescriptor H)) (fd : Int)
    (h : containsKey l fd = false) : countKey (tryEmplace l fd) fd = 1 := by
  have h0 := countKey_of_not_contains l fd h
  rw [tryEmplace_of_not_contains l fd h]
  unfold countKey at h0 ⊢
  rw [List.filter_append, List.length_append, h0]
  simp [List.filter]

theorem containsKey_tryEmplace {H : Type} (l : List (Int × MonitoredDescriptor H)) (fd : Int) :
    containsKey (tryEmplace l fd) fd = true := by
  by_cases h : containsKey l fd
  · rw [tryEmplace_of_contains l fd h]
    exact h
  · have h' : containsKey l fd = false := by simpa using h
    rw [tryEmplace_of_not_contains l fd h']
    unfold containsKey
    rw [lookupKey_append_absent l fd _ (lookupKey_none_of_not_contains l fd h')]
    rfl

/-! ## Dispatch-loop helper lemmas -/

theorem dispatchLoop_nil {H : Type} (run : H → Int → Epoll H → Epoll H) (fd : Int)
    (events : Nat) (st : Epoll H) :
    Epoll.dispatchLoop run fd events [] st = (st, false) := rfl

theorem dispatchLoop_cons_none {H : Type} (run : H → Int → Epoll H → Epoll H) (fd : Int)
    (events evt : Nat) (rest : List Nat) (st : Epoll H)
    (hl : lookupKey st.monitoredFds fd = none) :
    Epoll.dispatchLoop run fd events (evt :: rest) st = (st, true) := by
  unfold Epoll.dispatchLoop
  rw [hl]

theorem dispatchLoop_cons {H : Type} (run : H → Int → Epoll H → Epoll H) (fd : Int)
    (events evt : Nat) (rest : List Nat) (st : Epoll H) :
    Epoll.dispatchLoop run fd events (evt :: rest) st =
      match lookupKey st.monitoredFds fd with
      | none => (st, true)
      | some md =>
        if md.hasHandler (events &&& evt) then
          match md.getHandler (events &&& evt) with
          | some h => Epoll.dispatchLoop run fd events rest (run h fd st)
          | none => Epoll.dispatchLoop run fd events rest st
        else Epoll.dispatchLoop run fd events rest st := rfl

theorem dispatchLoop_cons_some {H : Type} (run : H → Int → Epoll H → Epoll H) (fd : Int)
    (events evt : Nat) (rest : List Nat) (st : Epoll H) (md : MonitoredDescriptor H)
    (hl : lookupKey st.monitoredFds fd = some md) :
    Epoll.dispatchLoop run fd events (evt :: rest) st =
      Epoll.dispatchLoop run fd events rest
        (if md.hasHandler (events &&& evt) then
          (match md.getHandler (events &&& evt) with
           | some h => run h fd st
           | none => st)
         else st) := by
  rw [dispatchLoop_cons, hl]
  by_cases hh : md.hasHandler (events &&& evt)
  · simp only [hh]
    cases hg : md.getHandler (events &&& evt)
    · simp [hg]
    · simp [hg]
  · simp [hh]

theorem dispatchLoop_early_lookup {H : Type} (run : H → Int → Epoll H → Epoll H) (fd : Int)
    (events : Nat) :
    ∀ (l : List Nat) (st : Epoll H),
      (Epoll.dispatchLoop run fd events l st).2 = true →
      lookupKey ((Epoll.dispatchLoop run fd events l st).1).monitoredFds fd = none := by
  intro l
  induction l with
  | nil => intro st h; rw [dispatchLoop_nil] at h; simp at h
  | cons evt rest ih =>
    intro st h
    cases hl : lookupKey st.monitoredFds fd with
    | none =>
      rw [dispatchLoop_cons_none run fd events evt rest st hl]
      exact hl
    | some md =>
      rw [dispatchLoop_cons_some run fd events evt rest st md hl] at h ⊢
      exact ih _ h

/-! ## Reload characterization -/

/-- The single kernel call `_reloadEventHandlers` issues for an entry:
modify when already initialized, add otherwise (Epoll.cpp 141-147). -/
def reloadCall {H : Type} (et : Bool) (md : MonitoredDescriptor H) : KernelCall :=
  if md.isInitialized then .ctlMod md.monitoredFd (reloadMask et md)
  else .ctlAdd md.monitoredFd (reloadMask et md)

/-- The error thrown when that kernel call fails. -/
def reloadFailure {H : Type} (md : MonitoredDescriptor H) : EpollError :=
  if md.isInitialized then .ctlModFailed else .ctlAddFailed

theorem reload_calls {H : Type} (K : KernelCall → Bool) (et : Bool)
    (md : MonitoredDescriptor H) :
    (Epoll.reloadEventHandlers K et md).2.1 = [reloadCall et md] := by
  unfold Epoll.reloadEventHandlers reloadCall
  by_cases hi : md.isInitialized
  · simp only [hi]
    by_cases hk : K (.ctlMod md.monitoredFd (reloadMask et md)) <;> simp [hk]
  · simp only [hi]
    by_cases hk : K (.ctlAdd md.monitoredFd (reloadMask et md)) <;> simp [hk]

theorem reload_of_fail {H : Type} (K : KernelCall → Bool) (et : Bool)
    (md : MonitoredDescriptor H) (hk : K (reloadCall et md) = false) :
    Epoll.reloadEventHandlers K et md = (md, [reloadCall et md], some (reloadFailure md)) := by
  by_cases hi : md.isInitialized
  · have hc : reloadCall et md = .ctlMod md.monitoredFd (reloadMask et md) := by
      unfold reloadCall; rw [if_pos hi]
    have hf : reloadFailure md = .ctlModFailed := by
      unfold reloadFailure; rw [if_pos hi]
    rw [hc] at hk
    unfold Epoll.reloadEventHandlers
    rw [hc, hf]
    simp [hi, hk]
  · have hc : reloadCall et md = .ctlAdd md.monitoredFd (reloadMask et md) := by
      unfold reloadCall; rw [if_neg hi]
    have hf : reloadFailure md = .ctlAddFailed := by
      unfold reloadFailure; rw [if_neg hi]
    rw [hc] at hk
    unfold Epoll.reloadEventHandlers
    rw [hc, hf]
    simp [hi, hk]

theorem reload_of_initialized {H : Type} (K : KernelCall → Bool) (et : Bool)
    (md : MonitoredDescriptor H) (hi : md.isInitialized = true) :
    (Epoll.reloadEventHandlers K et md).1 = md := by
  unfold Epoll.reloadEventHandlers
  simp only [hi]
  by_cases hk : K (.ctlMod md.monitoredFd (reloadMask et md)) <;> simp [hk]

theorem reload_of_uninitialized_ok {H : Type} (K : KernelCall → Bool) (et : Bool)
    (md : MonitoredDescriptor H) (hi : md.isInitialized = false)
    (hk : K (.ctlAdd md.monitoredFd (reloadMask et md)) = true) :
    (Epoll.reloadEventHandlers K et md).1 = { md with isInitialized := true } := by
  unfold Epoll.reloadEventHandlers
  simp [hi, hk]

theorem hasHandler_setInitialized {H : Type} (md : MonitoredDescriptor H) (b : Bool) (e : Nat) :
    ({ md with isInitialized := b } : MonitoredDescriptor H).hasHandler e = md.hasHandler e := rfl

theorem getHandler_setInitialized {H : Type} (md : MonitoredDescriptor H) (b : Bool) (e : Nat) :
    ({ md with isInitialized := b } : MonitoredDescriptor H).getHandler e = md.getHandler e := rfl

/-- `_reloadEventHandlers` only ever touches `isInitialized`: every handler
slot of the returned entry is the one passed in. -/
theorem reload_getHandler {H : Type} (K : KernelCall → Bool) (et : Bool)
    (md : MonitoredDescriptor H) (e : Nat) :
    (Epoll.reloadEventHandlers K et md).1.getHandler e = md.getHandler e := by
  unfold Epoll.reloadEventHandlers
  by_cases hi : md.isInitialized
  · simp only [hi]
    by_cases hk : K (.ctlMod md.monitoredFd (reloadMask et md)) <;> simp [hk]
  · simp only [hi]
    by_cases hk : K (.ctlAdd md.monitoredFd (reloadMask et md)) <;>
      simp [hk, getHandler_setInitialized]

theorem reload_hasHandler {H : Type} (K : KernelCall → Bool) (et : Bool)
    (md : MonitoredDescriptor H) (e : Nat) :
    (Epoll.reloadEventHandlers K et md).1.hasHandler e = md.hasHandler e := by
  unfold Epoll.reloadEventHandlers
  by_cases hi : md.isInitialized
  · simp only [hi]
    by_cases hk : K (.ctlMod md.monitoredFd (reloadMask et md)) <;> simp [hk]
  · simp only [hi]
    by_cases hk : K (.ctlAdd md.monitoredFd (reloadMask et md)) <;>
      simp [hk, hasHandler_setInitialized]

/-! ## A concrete callback language for closed theorems -/

/-- A tiny concrete callback type used in closed theorems: a callback either
does nothing or calls `removeDescriptor` on the captured reactor. -/
inductive Act where
  | nop : Act
  | removeFd : Int → Act
  deriving DecidableEq

/-- Interpretation of `Act` callbacks as state mutations performed through
the reactor reference captured by the `std::function`. -/
def runAct : Act → Int → Epoll Act → Epoll Act
  | .nop, _, st => st
  | .removeFd n, _, st => (st.removeDescriptor n).1

/-- Registry used by the C1 theorems: descriptor 3 with a readable-category
handler and no handler in either hang-up category. -/
def stC1 : Epoll Act :=
  ⟨[((3 : Int), { monitoredFd := 3, IN_handler := some .nop })], false⟩

/-! ## Claim C1 -/

/-- Claim C1, counterexample: descriptor 3 has no handler for `EPOLLRDHUP`
nor `EPOLLHUP`, yet after a wait-cycle that reports `EPOLLHUP` for it, it is
gone from the registry — the claim says such a descriptor remains present
and must be removed manually, but Epoll.cpp 59-61 removes it based on the
reported bits alone. -/
theorem claim_C1_counterexample :
    ({ monitoredFd := 3, IN_handler := some .nop } : MonitoredDescriptor Act).hasHandler
        EPOLLRDHUP = false
    ∧ ({ monitoredFd := 3, IN_handler := some .nop } : MonitoredDescriptor Act).hasHandler
        EPOLLHUP = false
    ∧ lookupKey (Epoll.waitForEvents runAct [((3 : Int), EPOLLHUP)] stC1).monitoredFds 3
        = none := by
  refine ⟨by decide, by decide, by decide⟩

/-- Claim C1, amended: after a wait-cycle whose batch reports `(fd, events)`
with a hang-up or peer-half-closed bit set, `fd` is absent from the registry
regardless of whether any hang-up-category callback is registered — the
automatic `removeDescriptor` is unconditional on handler registration
(and when a callback removed `fd` mid-cycle it is absent as well). -/
theorem claim_C1_amended {H : Type} (run : H → Int → Epoll H → Epoll H) (fd : Int)
    (events : Nat) (st : Epoll H) (h : events &&& (EPOLLRDHUP ||| EPOLLHUP) ≠ 0) :
    lookupKey (Epoll.waitForEvents run [(fd, events)] st).monitoredFds fd = none := by
  simp only [Epoll.waitForEvents]
  by_cases he : (Epoll.dispatchLoop run fd events allEventTypes st).2
  · rw [if_pos he]
    exact dispatchLoop_early_lookup run fd events allEventTypes st he
  · rw [if_neg he, if_pos h]
    exact lookupKey_removeDescriptor _ _

/-- Witness for the amended C1 at a concrete input. -/
theorem claim_C1_amended_witness :
    EPOLLHUP &&& (EPOLLRDHUP ||| EPOLLHUP) ≠ 0
    ∧ lookupKey (Epoll.waitForEvents runAct [((3 : Int), EPOLLHUP)] stC1).monitoredFds 3
        = none :=
  ⟨by decide, claim_C1_amended runAct 3 EPOLLHUP stC1 (by decide)⟩

/-! ## Claim C2 -/

/-- Registry used by the C2 theorems: descriptors 1 and 2, each with a
readable-category handler that removes that same descriptor. -/
def stC2 : Epoll Act :=
  ⟨[((1 : Int), { monitoredFd := 1, IN_handler := some (.removeFd 1) }),
    ((2 : Int), { monitoredFd := 2, IN_handler := some (.removeFd 2) })], false⟩

/-- Claim C2, counterexample: in the batch `[(1, EPOLLIN), (2, EPOLLIN)]`,
descriptor 1's callback removes descriptor 1, after which the code returns
from the whole wait-cycle (Epoll.cpp 48-49).  The final state is exactly the
registry at the moment of detection: descriptor 2's pair was never processed,
its entry — readable handler included — survives byte for byte, although that
matching registered handler, had it been dispatched as the claim demands,
would have removed descriptor 2.  This refutes "the remaining reported
descriptor pairs of the same batch are still processed". -/
theorem claim_C2_counterexample :
    Epoll.waitForEvents runAct [((1 : Int), EPOLLIN), ((2 : Int), EPOLLIN)] stC2
      = ⟨[((2 : Int), { monitoredFd := 2, IN_handler := some (.removeFd 2) })], false⟩
    ∧ lookupKey (Epoll.waitForEvents runAct
        [((1 : Int), EPOLLIN), ((2 : Int), EPOLLIN)] stC2).monitoredFds 1 = none
    ∧ lookupKey (Epoll.waitForEvents runAct
        [((1 : Int), EPOLLIN), ((2 : Int), EPOLLIN)] stC2).monitoredFds 2
      = some { monitoredFd := 2, IN_handler := some (.removeFd 2) } := by
  refine ⟨by decide, by decide, by decide⟩

/-- Claim C2, amended: registry membership of `fd` is re-checked before each
single handler invocation of a wait-cycle (third conjunct: whenever `fd` is
absent, the very next category step stops the dispatch immediately, with no
handler run and no state change), and when that check fails — because an
earlier callback removed `fd` — the entire `waitForEvents` call returns at
once: no further handler runs for `fd`, and the remaining reported pairs of
the batch are abandoned unprocessed, the final state being the state at the
moment of detection (where `fd` is indeed absent). -/
theorem claim_C2_amended {H : Type} (run : H → Int → Epoll H → Epoll H) (fd : Int)
    (events : Nat) (rest : List (Int × Nat)) (st : Epoll H)
    (h : (Epoll.dispatchLoop run fd events allEventTypes st).2 = true) :
    Epoll.waitForEvents run ((fd, events) :: rest) st
      = (Epoll.dispatchLoop run fd events allEventTypes st).1
    ∧ lookupKey ((Epoll.dispatchLoop run fd events allEventTypes st).1).monitoredFds fd
      = none
    ∧ (∀ (evt : Nat) (cats : List Nat) (st' : Epoll H),
        lookupKey st'.monitoredFds fd = none →
        Epoll.dispatchLoop run fd events (evt :: cats) st' = (st', true)) := by
  refine ⟨?_, ?_, ?_⟩
  · simp only [Epoll.waitForEvents]
    rw [if_pos h]
  · exact dispatchLoop_early_lookup run fd events allEventTypes st h
  · intro evt cats st' hl
    exact dispatchLoop_cons_none run fd events evt cats st' hl

/-- Witness for the amended C2 at a concrete input; the last conjunct
exercises the membership re-check at the state right after descriptor 1's
callback removed it, with the remaining five categories pending. -/
theorem claim_C2_amended_witness :
    (Epoll.dispatchLoop runAct 1 EPOLLIN allEventTypes stC2).2 = true
    ∧ (Epoll.waitForEvents runAct [((1 : Int), EPOLLIN)] stC2
        = (Epoll.dispatchLoop runAct 1 EPOLLIN allEventTypes stC2).1
      ∧ lookupKey ((Epoll.dispatchLoop runAct 1 EPOLLIN allEventTypes stC2).1).monitoredFds 1
        = none
      ∧ Epoll.dispatchLoop runAct 1 EPOLLIN
          (EPOLLOUT :: [EPOLLRDHUP, EPOLLPRI, EPOLLERR, EPOLLHUP])
          ⟨[((2 : Int), { monitoredFd := 2, IN_handler := some (.removeFd 2) })], false⟩
        = (⟨[((2 : Int), { monitoredFd := 2, IN_handler := some (.removeFd 2) })], false⟩,
           true)) := by
  have h := claim_C2_amended runAct 1 EPOLLIN [] stC2 (by decide)
  exact ⟨by decide, h.1, h.2.1,
    h.2.2 EPOLLOUT [EPOLLRDHUP, EPOLLPRI, EPOLLERR, EPOLLHUP]
      ⟨[((2 : Int), { monitoredFd := 2, IN_handler := some (.removeFd 2) })], false⟩
      (by decide)⟩

/-! ## Unfolding lemmas for the handler operations -/

theorem addEventHandler_none {H : Type} (K : KernelCall → Bool) (st : Epoll H) (fd : Int)
    (eventType : Nat) (cb : H) (hl : lookupKey st.monitoredFds fd = none) :
    Epoll.addEventHandler K st fd eventType cb = ⟨st, [], some .notRegistered⟩ := by
  unfold Epoll.addEventHandler
  rw [hl]

theorem addEventHandler_some {H : Type} (K : KernelCall → Bool) (st : Epoll H) (fd : Int)
    (eventType : Nat) (cb : H) (md : MonitoredDescriptor H)
    (hl : lookupKey st.monitoredFds fd = some md) :
    Epoll.addEventHandler K st fd eventType cb =
      ⟨{ st with monitoredFds := (updateKey st.monitoredFds fd
          (Epoll.reloadEventHandlers K st.isEdgeTriggered (applyMaskHandlers eventType cb md)).1) },
       (Epoll.reloadEventHandlers K st.isEdgeTriggered (applyMaskHandlers eventType cb md)).2.1,
       (Epoll.reloadEventHandlers K st.isEdgeTriggered (applyMaskHandlers eventType cb md)).2.2⟩ := by
  unfold Epoll.addEventHandler
  rw [hl]

theorem removeEventHandler_some {H : Type} (K : KernelCall → Bool) (st : Epoll H) (fd : Int)
    (eventType : Nat) (md : MonitoredDescriptor H)
    (hl : lookupKey st.monitoredFds fd = some md) :
    Epoll.removeEventHandler K st fd eventType =
      ⟨{ st with monitoredFds := (updateKey st.monitoredFds fd
          (Epoll.reloadEventHandlers K st.isEdgeTriggered (clearMaskHandlers eventType md)).1) },
       (Epoll.reloadEventHandlers K st.isEdgeTriggered (clearMaskHandlers eventType md)).2.1,
       (Epoll.reloadEventHandlers K st.isEdgeTriggered (clearMaskHandlers eventType md)).2.2⟩ := by
  unfold Epoll.removeEventHandler
  rw [hl]

/-! ## Field-preservation lemmas for setHandler and the mask folds -/

theorem setHandler_isInitialized {H : Type} (md : MonitoredDescriptor H) (e : Nat)
    (oh : Option H) : (md.setHandler e oh).isInitialized = md.isInitialized := by
  unfold MonitoredDescriptor.setHandler
  split_ifs <;> rfl

theorem setHandler_monitoredFd {H : Type} (md : MonitoredDescriptor H) (e : Nat)
    (oh : Option H) : (md.setHandler e oh).monitoredFd = md.monitoredFd := by
  unfold MonitoredDescriptor.setHandler
  split_ifs <;> rfl

theorem applyMask_isInitialized {H : Type} (mask : Nat) (cb : H) (md : MonitoredDescriptor H) :
    (applyMaskHandlers mask cb md).isInitialized = md.isInitialized := by
  unfold applyMaskHandlers
  generalize allEventTypes = l
  induction l generalizing md with
  | nil => rfl
  | cons e rest ih =>
    simp only [List.foldl]
    by_cases hc : mask &&& e ≠ 0
    · rw [if_pos hc, ih (md.setHandler e (some cb))]
      exact setHandler_isInitialized md e (some cb)
    · rw [if_neg hc]
      exact ih md

theorem applyMask_monitoredFd {H : Type} (mask : Nat) (cb : H) (md : MonitoredDescriptor H) :
    (applyMaskHandlers mask cb md).monitoredFd = md.monitoredFd := by
  unfold applyMaskHandlers
  generalize allEventTypes = l
  induction l generalizing md with
  | nil => rfl
  | cons e rest ih =>
    simp only [List.foldl]
    by_cases hc : mask &&& e ≠ 0
    · rw [if_pos hc, ih (md.setHandler e (some cb))]
      exact setHandler_monitoredFd md e (some cb)
    · rw [if_neg hc]
      exact ih md

theorem clearMask_isInitialized {H : Type} (mask : Nat) (md : MonitoredDescriptor H) :
    (clearMaskHandlers mask md).isInitialized = md.isInitialized := by
  unfold clearMaskHandlers
  generalize allEventTypes = l
  induction l generalizing md with
  | nil => rfl
  | cons e rest ih =>
    simp only [List.foldl]
    by_cases hc : md.hasHandler (mask &&& e)
    · rw [if_pos hc, ih (md.setHandler (mask &&& e) none)]
      exact setHandler_isInitialized md (mask &&& e) none
    · rw [if_neg hc]
      exact ih md

/-! ## Claim C4 -/

/-- Claim C4: `addEventHandler` on a descriptor absent from the registry
fails with the precondition-violation error (Epoll.cpp 66-68), issues no
kernel call, and leaves the registry — in fact the whole reactor state —
unchanged. -/
theorem claim_C4 {H : Type} (K : KernelCall → Bool) (st : Epoll H) (fd : Int)
    (mask : Nat) (cb : H) (h : lookupKey st.monitoredFds fd = none) :
    Epoll.addEventHandler K st fd mask cb = ⟨st, [], some .notRegistered⟩ :=
  addEventHandler_none K st fd mask cb h

/-- Witness for C4 at a concrete input: the empty registry. -/
theorem claim_C4_witness :
    Epoll.addEventHandler (fun _ => true) (⟨[], false⟩ : Epoll Act) 5 EPOLLIN Act.nop
      = ⟨⟨[], false⟩, [], some .notRegistered⟩ :=
  claim_C4 (fun _ => true) ⟨[], false⟩ 5 EPOLLIN Act.nop rfl

/-! ## Claim C3 -/

/-- Claim C3: when the kernel subscribe/modify call issued by
`addEventHandler` or `removeEventHandler` fails, the error is surfaced from
that operation, and the registry is exactly in the state it had just before
the failed kernel call (the handler slots already mutated in place, the
`isInitialized` flag untouched); in particular a failing "add" kernel call
never marks the entry initialized. -/
theorem claim_C3 {H : Type} :
    (∀ (K : KernelCall → Bool) (st : Epoll H) (fd : Int) (mask : Nat) (cb : H)
        (md : MonitoredDescriptor H),
      lookupKey st.monitoredFds fd = some md →
      K (reloadCall st.isEdgeTriggered (applyMaskHandlers mask cb md)) = false →
      Epoll.addEventHandler K st fd mask cb =
        ⟨{ st with monitoredFds := (updateKey st.monitoredFds fd (applyMaskHandlers mask cb md)) },
         [reloadCall st.isEdgeTriggered (applyMaskHandlers mask cb md)],
         some (reloadFailure (applyMaskHandlers mask cb md))⟩
      ∧ (applyMaskHandlers mask cb md).isInitialized = md.isInitialized)
    ∧ (∀ (K : KernelCall → Bool) (st : Epoll H) (fd : Int) (mask : Nat)
        (md : MonitoredDescriptor H),
      lookupKey st.monitoredFds fd = some md →
      K (reloadCall st.isEdgeTriggered (clearMaskHandlers mask md)) = false →
      Epoll.removeEventHandler K st fd mask =
        ⟨{ st with monitoredFds := (updateKey st.monitoredFds fd (clearMaskHandlers mask md)) },
         [reloadCall st.isEdgeTriggered (clearMaskHandlers mask md)],
         some (reloadFailure (clearMaskHandlers mask md))⟩
      ∧ (clearMaskHandlers mask md).isInitialized = md.isInitialized) := by
  constructor
  · intro K st fd mask cb md hl hk
    refine ⟨?_, applyMask_isInitialized mask cb md⟩
    rw [addEventHandler_some K st fd mask cb md hl,
      reload_of_fail K st.isEdgeTriggered (applyMaskHandlers mask cb md) hk]
  · intro K st fd mask md hl hk
    refine ⟨?_, clearMask_isInitialized mask md⟩
    rw [removeEventHandler_some K st fd mask md hl,
      reload_of_fail K st.isEdgeTriggered (clearMaskHandlers mask md) hk]

/-- Registry used by the C3 witness: descriptor 1 registered with the
fresh (uninitialized, handler-free) entry. -/
def stC3 : Epoll Act := ⟨[((1 : Int), { monitoredFd := 1 })], false⟩

/-- Witness for C3 at a concrete input: the always-failing kernel oracle;
the failing add call surfaces as `ctlAddFailed` from both operations and
the entry stays uninitialized. -/
theorem claim_C3_witness :
    ((Epoll.addEventHandler (fun _ => false) stC3 1 EPOLLIN Act.nop).error
        = some .ctlAddFailed
      ∧ (applyMaskHandlers EPOLLIN Act.nop
          ({ monitoredFd := 1 } : MonitoredDescriptor Act)).isInitialized = false)
    ∧ ((Epoll.removeEventHandler (fun _ => false) stC3 1 EPOLLIN).error
        = some .ctlAddFailed
      ∧ (clearMaskHandlers EPOLLIN
          ({ monitoredFd := 1 } : MonitoredDescriptor Act)).isInitialized = false) := by
  have h1 := claim_C3.1 (fun _ => false) stC3 1 EPOLLIN Act.nop { monitoredFd := 1 } rfl rfl
  have h2 := claim_C3.2 (fun _ => false) stC3 1 EPOLLIN { monitoredFd := 1 } rfl rfl
  refine ⟨⟨?_, h1.2⟩, ⟨?_, h2.2⟩⟩
  · rw [h1.1]
    decide
  · rw [h2.1]
    decide

/-! ## Claim C5 -/

/-- Spec-side subscription mask, following the spec's words: "compute the
union of all six categories currently holding a non-empty handler; if
edge-triggered, union in the edge-trigger flag even when no handler is set".
To be compared with `reloadMask`, the mask the source computes. -/
def specSubscriptionMask {H : Type} (et : Bool) (md : MonitoredDescriptor H) : Nat :=
  (allEventTypes.foldl (fun acc evt => if md.hasHandler evt then acc ||| evt else acc) 0)
    ||| (if et then EPOLLET else 0)

theorem maskFold_pair_fst (P : Nat → Bool) (l : List Nat) : ∀ (a : Nat),
    (l.foldl (fun acc evt => if P evt then
        (if acc.2 then (evt, false) else (acc.1 ||| evt, false)) else acc)
      ((a, false) : Nat × Bool)).1
    = l.foldl (fun acc evt => if P evt then acc ||| evt else acc) a := by
  induction l with
  | nil => intro a; rfl
  | cons e rest ih =>
    intro a
    by_cases h : P e
    · simp only [List.foldl, if_pos h]
      exact ih (a ||| e)
    · simp only [List.foldl, if_neg h]
      exact ih a

theorem maskFold_pair_fst_start (P : Nat → Bool) (l : List Nat) :
    (l.foldl (fun acc evt => if P evt then
        (if acc.2 then (evt, false) else (acc.1 ||| evt, false)) else acc)
      ((0, true) : Nat × Bool)).1
    = l.foldl (fun acc evt => if P evt then acc ||| evt else acc) 0 := by
  induction l with
  | nil => rfl
  | cons e rest ih =>
    rw [List.foldl_cons, List.foldl_cons]
    by_cases h : P e
    · simp only [h, if_true]
      rw [Nat.zero_or]
      exact maskFold_pair_fst P rest e
    · simp only [h, if_false]
      exact ih
theorem maskFold_pair_snd_false (P : Nat → Bool) (l : List Nat) : ∀ (a : Nat),
    (l.foldl (fun acc evt => if P evt then
        (if acc.2 then (evt, false) else (acc.1 ||| evt, false)) else acc)
      ((a, false) : Nat × Bool)).2 = false := by
  induction l with
  | nil => intro a; rfl
  | cons e rest ih =>
    intro a
    by_cases h : P e
    · simp only [List.foldl, if_pos h]
      exact ih (a ||| e)
    · simp only [List.foldl, if_neg h]
      exact ih a

theorem maskFold_pair_snd (P : Nat → Bool) (l : List Nat)
    (h : (l.foldl (fun acc evt => if P evt then
        (if acc.2 then (evt, false) else (acc.1 ||| evt, false)) else acc)
      ((0, true) : Nat × Bool)).2 = true) :
    l.foldl (fun acc evt => if P evt then acc ||| evt else acc) 0 = 0 := by
  induction l with
  | nil => rfl
  | cons e rest ih =>
    rw [List.foldl_cons] at h
    rw [List.foldl_cons]
    by_cases hp : P e
    · exfalso
      simp only [hp, if_true] at h
      rw [maskFold_pair_snd_false P rest e] at h
      exact Bool.false_ne_true h
    · simp only [hp, if_false] at h
      simp only [hp, if_false]
      exact ih h
/-- The mask the source's `firstEvt` loop computes coincides with the
spec-side union-of-handled-categories mask. -/
theorem reloadMask_eq_spec {H : Type} (et : Bool) (md : MonitoredDescriptor H) :
    reloadMask et md = specSubscriptionMask et md := by
  unfold reloadMask specSubscriptionMask
  cases et
  · simp only [Bool.false_eq_true, if_false]
    rw [maskFold_pair_fst_start, Nat.or_zero]
  · simp only [if_true]
    by_cases he : ((allEventTypes.foldl (fun acc evt => if md.hasHandler evt then
        (if acc.2 then (evt, false) else (acc.1 ||| evt, false)) else acc)
      ((0, true) : Nat × Bool)).2 : Bool)
    · rw [if_pos he, maskFold_pair_snd (fun evt => md.hasHandler evt) allEventTypes he,
        Nat.zero_or]
    · rw [if_neg he, maskFold_pair_fst_start]

/-- Claim C5: after any handler addition or removal the recomputed kernel
subscription mask is the union of the categories with a non-empty handler,
with the edge-trigger flag unioned in when edge-triggered (also with no
handlers at all); the single kernel call issued carries exactly this mask —
an "add" when the entry is uninitialized (marking it initialized on
success), a fully-replacing "modify" otherwise (the entry untouched). -/
theorem claim_C5 {H : Type} (K : KernelCall → Bool) (et : Bool) (md : MonitoredDescriptor H) :
    reloadMask et md = specSubscriptionMask et md
    ∧ (Epoll.reloadEventHandlers K et md).2.1 = [reloadCall et md]
    ∧ (md.isInitialized = false → K (.ctlAdd md.monitoredFd (reloadMask et md)) = true →
        (Epoll.reloadEventHandlers K et md).1 = { md with isInitialized := true })
    ∧ (md.isInitialized = true → (Epoll.reloadEventHandlers K et md).1 = md) :=
  ⟨reloadMask_eq_spec et md, reload_calls K et md,
    fun h1 h2 => reload_of_uninitialized_ok K et md h1 h2,
    fun h1 => reload_of_initialized K et md h1⟩

/-- Entry used by the C5 witness: uninitialized, writable handler only. -/
def mdC5 : MonitoredDescriptor Act := { monitoredFd := 2, OUT_handler := some .nop }

/-- Witness for C5 at concrete inputs, covering both the uninitialized
(add, then marked initialized) and the initialized (modify) branches. -/
theorem claim_C5_witness :
    (reloadMask true mdC5 = specSubscriptionMask true mdC5
      ∧ (Epoll.reloadEventHandlers (fun _ => true) true mdC5).2.1 = [reloadCall true mdC5]
      ∧ (Epoll.reloadEventHandlers (fun _ => true) true mdC5).1
          = { mdC5 with isInitialized := true })
    ∧ (Epoll.reloadEventHandlers (fun _ => true) true
        { mdC5 with isInitialized := true }).1 = { mdC5 with isInitialized := true } := by
  have h1 := claim_C5 (fun _ => true) true mdC5
  have h2 := claim_C5 (fun _ => true) true { mdC5 with isInitialized := true }
  exact ⟨⟨h1.1, h1.2.1, h1.2.2.1 rfl rfl⟩, h2.2.2.2 rfl⟩

/-! ## Claim C6 -/

/-- `n` consecutive `addDescriptor(fd)` calls (only the registry state is
followed; the non-blocking-mode side effect carries no registry meaning). -/
def addNTimes {H : Type} (K : KernelCall → Bool) (fd : Int) : Nat → Epoll H → Epoll H
  | 0, st => st
  | n + 1, st => addNTimes K fd n (Epoll.addDescriptor K st fd).state

theorem addDescriptor_state {H : Type} (K : KernelCall → Bool) (st : Epoll H) (fd : Int) :
    (Epoll.addDescriptor K st fd).state
      = { st with monitoredFds := tryEmplace st.monitoredFds fd } := by
  unfold Epoll.addDescriptor
  split_ifs <;> rfl

theorem addDescriptor_state_of_contains {H : Type} (K : KernelCall → Bool) (st : Epoll H)
    (fd : Int) (h : containsKey st.monitoredFds fd = true) :
    (Epoll.addDescriptor K st fd).state = st := by
  rw [addDescriptor_state, tryEmplace_of_contains st.monitoredFds fd h]

theorem containsKey_addDescriptor {H : Type} (K : KernelCall → Bool) (st : Epoll H) (fd : Int) :
    containsKey ((Epoll.addDescriptor K st fd).state).monitoredFds fd = true := by
  rw [addDescriptor_state]
  exact containsKey_tryEmplace st.monitoredFds fd

theorem countKey_pos_of_contains {H : Type} (l : List (Int × MonitoredDescriptor H)) (fd : Int)
    (h : containsKey l fd = true) : 1 ≤ countKey l fd := by
  induction l with
  | nil => simp [containsKey, lookupKey] at h
  | cons p rest ih =>
    by_cases hp : p.1 = fd
    · simp [countKey, List.filter, hp]
    · simp only [containsKey, lookupKey, if_neg hp] at h
      simpa [countKey, List.filter, hp] using ih h

theorem addNTimes_of_contains {H : Type} (K : KernelCall → Bool) (fd : Int) :
    ∀ (n : Nat) (st : Epoll H), containsKey st.monitoredFds fd = true →
      addNTimes K fd n st = st := by
  intro n
  induction n with
  | zero => intro st _; rfl
  | succ m ih =>
    intro st h
    unfold addNTimes
    rw [addDescriptor_state_of_contains K st fd h]
    exact ih st h

/-- Claim C6: `fd` occurs in the registry exactly once after any positive
number of `addDescriptor(fd)` calls (starting from any map-invariant state
where it occurs at most once), and re-adding an already-registered `fd`
leaves the whole state — in particular its entry's handler slots —
unchanged (`try_emplace` no-op, Epoll.cpp 23). -/
theorem claim_C6 {H : Type} :
    (∀ (K : KernelCall → Bool) (st : Epoll H) (fd : Int) (n : Nat),
      countKey st.monitoredFds fd ≤ 1 →
      countKey (addNTimes K fd (n + 1) st).monitoredFds fd = 1)
    ∧ (∀ (K : KernelCall → Bool) (st : Epoll H) (fd : Int),
      containsKey st.monitoredFds fd = true →
      (Epoll.addDescriptor K st fd).state = st) := by
  constructor
  · intro K st fd n hle
    unfold addNTimes
    have h1 : countKey ((Epoll.addDescriptor K st fd).state).monitoredFds fd = 1 := by
      rw [addDescriptor_state]
      by_cases hc : containsKey st.monitoredFds fd
      · rw [tryEmplace_of_contains st.monitoredFds fd hc]
        exact le_antisymm hle (countKey_pos_of_contains st.monitoredFds fd hc)
      · exact countKey_tryEmplace_absent st.monitoredFds fd (by simpa using hc)
    rw [addNTimes_of_contains K fd n (Epoll.addDescriptor K st fd).state
      (containsKey_addDescriptor K st fd)]
    exact h1
  · intro K st fd h
    exact addDescriptor_state_of_contains K st fd h

/-- Witness for C6 at concrete inputs: two adds of descriptor 7 to the empty
registry leave one occurrence; re-adding an existing descriptor is the
identity on the state. -/
theorem claim_C6_witness :
    countKey (addNTimes (fun _ => true) 7 2 (⟨[], false⟩ : Epoll Act)).monitoredFds 7 = 1
    ∧ (Epoll.addDescriptor (fun _ => true)
        (⟨[((7 : Int), MonitoredDescriptor.new Act 7)], false⟩ : Epoll Act) 7).state
      = ⟨[((7 : Int), MonitoredDescriptor.new Act 7)], false⟩ :=
  ⟨claim_C6.1 (fun _ => true) ⟨[], false⟩ 7 1 (by decide),
   claim_C6.2 (fun _ => true) ⟨[((7 : Int), MonitoredDescriptor.new Act 7)], false⟩ 7 (by decide)⟩

/-! ## Per-slot behaviour of setHandler and getHandler -/

theorem mem_allEventTypes_cases (evt : Nat) (he : evt ∈ allEventTypes) :
    evt = EPOLLIN ∨ evt = EPOLLOUT ∨ evt = EPOLLRDHUP ∨ evt = EPOLLPRI ∨ evt = EPOLLERR
      ∨ evt = EPOLLHUP := by
  simpa [allEventTypes] using he

theorem getHandler_setHandler_self {H : Type} (md : MonitoredDescriptor H) (e : Nat)
    (oh : Option H) (he : e ∈ allEventTypes) :
    (md.setHandler e oh).getHandler e = oh := by
  rcases mem_allEventTypes_cases e he with rfl | rfl | rfl | rfl | rfl | rfl <;> rfl

theorem getHandler_setHandler_ne {H : Type} (md : MonitoredDescriptor H) (e e2 : Nat)
    (oh : Option H) (h2 : e2 ∈ allEventTypes) (hne : e ≠ e2) :
    (md.setHandler e oh).getHandler e2 = md.getHandler e2 := by
  unfold MonitoredDescriptor.setHandler
  rcases mem_allEventTypes_cases e2 h2 with rfl | rfl | rfl | rfl | rfl | rfl <;>
    split_ifs <;>
      first
        | rfl
        | (exact (hne (by assumption)).elim)

theorem hasHandler_eq_isSome {H : Type} (md : MonitoredDescriptor H) (e : Nat)
    (he : e ∈ allEventTypes) :
    md.hasHandler e = (md.getHandler e).isSome := by
  rcases mem_allEventTypes_cases e he with rfl | rfl | rfl | rfl | rfl | rfl <;> rfl

theorem getHandler_eq_none {H : Type} (md : MonitoredDescriptor H) (e : Nat)
    (he : e ∈ allEventTypes) (h : md.hasHandler e = false) :
    md.getHandler e = none := by
  rw [hasHandler_eq_isSome md e he] at h
  cases hg : md.getHandler e
  · rfl
  · rw [hg] at h
    simp at h

theorem hasHandler_zero {H : Type} (md : MonitoredDescriptor H) :
    md.hasHandler 0 = false := rfl

theorem mem_allEventTypes_ne_zero (evt : Nat) (he : evt ∈ allEventTypes) : evt ≠ 0 := by
  rcases mem_allEventTypes_cases evt he with rfl | rfl | rfl | rfl | rfl | rfl <;> decide

/-- A single-bit category flag intersected with any mask is all or nothing. -/
theorem land_mem_dichotomy (mask evt : Nat) (he : evt ∈ allEventTypes) :
    mask &&& evt = 0 ∨ mask &&& evt = evt := by
  have key : ∀ (i b : Nat), b = 2 ^ i → mask &&& b = 0 ∨ mask &&& b = b := by
    intro i b hb
    subst hb
    have h := Nat.and_two_pow mask i
    rcases hb : mask.testBit i <;> rw [hb] at h <;> simp at h <;> omega
  rcases mem_allEventTypes_cases evt he with rfl | rfl | rfl | rfl | rfl | rfl
  · exact key 0 EPOLLIN (by norm_num [EPOLLIN])
  · exact key 2 EPOLLOUT (by norm_num [EPOLLOUT])
  · exact key 13 EPOLLRDHUP (by norm_num [EPOLLRDHUP])
  · exact key 1 EPOLLPRI (by norm_num [EPOLLPRI])
  · exact key 3 EPOLLERR (by norm_num [EPOLLERR])
  · exact key 4 EPOLLHUP (by norm_num [EPOLLHUP])

/-! ## Characterization of the two handler folds -/

theorem applyFold_getHandler_frame {H : Type} (mask : Nat) (cb : H) (evt : Nat)
    (he : evt ∈ allEventTypes) :
    ∀ (l : List Nat), (mask &&& evt = 0 ∨ evt ∉ l) → ∀ (md : MonitoredDescriptor H),
      (l.foldl (fun m e => if mask &&& e ≠ 0 then m.setHandler e (some cb) else m)
        md).getHandler evt = md.getHandler evt := by
  intro l
  induction l with
  | nil => intro _ md; rfl
  | cons e rest ih =>
    intro hd md
    have hd' : mask &&& evt = 0 ∨ evt ∉ rest := by
      rcases hd with h0 | hnin
      · exact Or.inl h0
      · exact Or.inr (fun hm => hnin (List.mem_cons_of_mem e hm))
    rw [List.foldl_cons]
    by_cases hc : mask &&& e ≠ 0
    · rw [if_pos hc, ih hd' (md.setHandler e (some cb))]
      refine getHandler_setHandler_ne md e evt (some cb) he ?_
      intro hEq
      rcases hd with h0 | hnin
      · rw [hEq] at hc
        exact hc h0
      · refine hnin ?_
        rw [← hEq]
        exact List.mem_cons_self e rest
    · rw [if_neg hc]
      exact ih hd' md

/-- What `addEventHandler`'s installation loop does to every single slot:
slots of categories in the mask hold the new callback, all others are
untouched (Epoll.cpp 73-78). -/
theorem applyMask_getHandler {H : Type} (mask : Nat) (cb : H) (md : MonitoredDescriptor H)
    (evt : Nat) (he : evt ∈ allEventTypes) :
    (applyMaskHandlers mask cb md).getHandler evt
      = if mask &&& evt = 0 then md.getHandler evt else some cb := by
  by_cases h0 : mask &&& evt = 0
  · rw [if_pos h0]
    unfold applyMaskHandlers
    exact applyFold_getHandler_frame mask cb evt he allEventTypes (Or.inl h0) md
  · rw [if_neg h0]
    unfold applyMaskHandlers
    rcases mem_allEventTypes_cases evt he with rfl | rfl | rfl | rfl | rfl | rfl
    · rw [show allEventTypes
          = EPOLLIN :: [EPOLLOUT, EPOLLRDHUP, EPOLLPRI, EPOLLERR, EPOLLHUP] from rfl,
        List.foldl_cons, if_pos h0,
        applyFold_getHandler_frame mask cb EPOLLIN (by decide) _ (Or.inr (by decide)) _]
      exact getHandler_setHandler_self md EPOLLIN (some cb) (by decide)
    · rw [show allEventTypes
          = [EPOLLIN] ++ EPOLLOUT :: [EPOLLRDHUP, EPOLLPRI, EPOLLERR, EPOLLHUP] from rfl,
        List.foldl_append, List.foldl_cons, if_pos h0,
        applyFold_getHandler_frame mask cb EPOLLOUT (by decide) _ (Or.inr (by decide)) _]
      exact getHandler_setHandler_self _ EPOLLOUT (some cb) (by decide)
    · rw [show allEventTypes
          = [EPOLLIN, EPOLLOUT] ++ EPOLLRDHUP :: [EPOLLPRI, EPOLLERR, EPOLLHUP] from rfl,
        List.foldl_append, List.foldl_cons, if_pos h0,
        applyFold_getHandler_frame mask cb EPOLLRDHUP (by decide) _ (Or.inr (by decide)) _]
      exact getHandler_setHandler_self _ EPOLLRDHUP (some cb) (by decide)
    · rw [show allEventTypes
          = [EPOLLIN, EPOLLOUT, EPOLLRDHUP] ++ EPOLLPRI :: [EPOLLERR, EPOLLHUP] from rfl,
        List.foldl_append, List.foldl_cons, if_pos h0,
        applyFold_getHandler_frame mask cb EPOLLPRI (by decide) _ (Or.inr (by decide)) _]
      exact getHandler_setHandler_self _ EPOLLPRI (some cb) (by decide)
    · rw [show allEventTypes
          = [EPOLLIN, EPOLLOUT, EPOLLRDHUP, EPOLLPRI] ++ EPOLLERR :: [EPOLLHUP] from rfl,
        List.foldl_append, List.foldl_cons, if_pos h0,
        applyFold_getHandler_frame mask cb EPOLLERR (by decide) _ (Or.inr (by decide)) _]
      exact getHandler_setHandler_self _ EPOLLERR (some cb) (by decide)
    · rw [show allEventTypes
          = [EPOLLIN, EPOLLOUT, EPOLLRDHUP, EPOLLPRI, EPOLLERR] ++ EPOLLHUP :: [] from rfl,
        List.foldl_append, List.foldl_cons, if_pos h0]
      exact getHandler_setHandler_self _ EPOLLHUP (some cb) (by decide)

theorem clearFold_getHandler_frame {H : Type} (mask evt : Nat) (he : evt ∈ allEventTypes) :
    ∀ (l : List Nat), (∀ e ∈ l, e ∈ allEventTypes) → (mask &&& evt = 0 ∨ evt ∉ l) →
      ∀ (md : MonitoredDescriptor H),
      (l.foldl (fun m e =>
          if m.hasHandler (mask &&& e) then m.setHandler (mask &&& e) none else m)
        md).getHandler evt = md.getHandler evt := by
  intro l
  induction l with
  | nil => intro _ _ md; rfl
  | cons e rest ih =>
    intro hall hd md
    have hall' : ∀ x ∈ rest, x ∈ allEventTypes :=
      fun x hx => hall x (List.mem_cons_of_mem e hx)
    have hd' : mask &&& evt = 0 ∨ evt ∉ rest := by
      rcases hd with h0 | hnin
      · exact Or.inl h0
      · exact Or.inr (fun hm => hnin (List.mem_cons_of_mem e hm))
    rw [List.foldl_cons]
    rcases land_mem_dichotomy mask e (hall e (List.mem_cons_self e rest)) with h0e | hee
    · rw [h0e, if_neg (by rw [hasHandler_zero]; exact Bool.false_ne_true)]
      exact ih hall' hd' md
    · rw [hee]
      by_cases hh : md.hasHandler e
      · rw [if_pos hh, ih hall' hd' (md.setHandler e none)]
        refine getHandler_setHandler_ne md e evt none he ?_
        intro hEq
        rcases hd with h0 | hnin
        · rw [hEq] at hee
          exact mem_allEventTypes_ne_zero evt he (hee.symm.trans h0)
        · refine hnin ?_
          rw [← hEq]
          exact List.mem_cons_self e rest
      · rw [if_neg hh]
        exact ih hall' hd' md

/-- What `removeEventHandler`'s clearing loop does to every single slot:
slots of categories in the mask are cleared, all others untouched
(Epoll.cpp 88-94). -/
theorem clearMask_getHandler {H : Type} (mask : Nat) (md : MonitoredDescriptor H)
    (evt : Nat) (he : evt ∈ allEventTypes) :
    (clearMaskHandlers mask md).getHandler evt
      = if mask &&& evt = 0 then md.getHandler evt else none := by
  by_cases h0 : mask &&& evt = 0
  · rw [if_pos h0]
    unfold clearMaskHandlers
    exact clearFold_getHandler_frame mask evt he allEventTypes (fun e h => h) (Or.inl h0) md
  · rw [if_neg h0]
    have hee : mask &&& evt = evt := (land_mem_dichotomy mask evt he).resolve_left h0
    unfold clearMaskHandlers
    rcases mem_allEventTypes_cases evt he with rfl | rfl | rfl | rfl | rfl | rfl
    · rw [show allEventTypes
          = EPOLLIN :: [EPOLLOUT, EPOLLRDHUP, EPOLLPRI, EPOLLERR, EPOLLHUP] from rfl,
        List.foldl_cons, hee,
        clearFold_getHandler_frame mask EPOLLIN (by decide) _ (by decide) (Or.inr (by decide)) _]
      by_cases hh : md.hasHandler EPOLLIN
      · rw [if_pos hh]
        exact getHandler_setHandler_self md EPOLLIN none (by decide)
      · rw [if_neg hh]
        exact getHandler_eq_none md EPOLLIN (by decide) (by simpa using hh)
    · rw [show allEventTypes
          = [EPOLLIN] ++ EPOLLOUT :: [EPOLLRDHUP, EPOLLPRI, EPOLLERR, EPOLLHUP] from rfl,
        List.foldl_append, List.foldl_cons, hee,
        clearFold_getHandler_frame mask EPOLLOUT (by decide) _ (by decide) (Or.inr (by decide)) _]
      by_cases hh : (List.foldl (fun m e =>
          if m.hasHandler (mask &&& e) then m.setHandler (mask &&& e) none else m)
          md [EPOLLIN]).hasHandler EPOLLOUT
      · rw [if_pos hh]
        exact getHandler_setHandler_self _ EPOLLOUT none (by decide)
      · rw [if_neg hh]
        exact getHandler_eq_none _ EPOLLOUT (by decide) (by simpa using hh)
    · rw [show allEventTypes
          = [EPOLLIN, EPOLLOUT] ++ EPOLLRDHUP :: [EPOLLPRI, EPOLLERR, EPOLLHUP] from rfl,
        List.foldl_append, List.foldl_cons, hee,
        clearFold_getHandler_frame mask EPOLLRDHUP (by decide) _ (by decide) (Or.inr (by decide)) _]
      by_cases hh : (List.foldl (fun m e =>
          if m.hasHandler (mask &&& e) then m.setHandler (mask &&& e) none else m)
          md [EPOLLIN, EPOLLOUT]).hasHandler EPOLLRDHUP
      · rw [if_pos hh]
        exact getHandler_setHandler_self _ EPOLLRDHUP none (by decide)
      · rw [if_neg hh]
        exact getHandler_eq_none _ EPOLLRDHUP (by decide) (by simpa using hh)
    · rw [show allEventTypes
          = [EPOLLIN, EPOLLOUT, EPOLLRDHUP] ++ EPOLLPRI :: [EPOLLERR, EPOLLHUP] from rfl,
        List.foldl_append, List.foldl_cons, hee,
        clearFold_getHandler_frame mask EPOLLPRI (by decide) _ (by decide) (Or.inr (by decide)) _]
      by_cases hh : (List.foldl (fun m e =>
          if m.hasHandler (mask &&& e) then m.setHandler (mask &&& e) none else m)
          md [EPOLLIN, EPOLLOUT, EPOLLRDHUP]).hasHandler EPOLLPRI
      · rw [if_pos hh]
        exact getHandler_setHandler_self _ EPOLLPRI none (by decide)
      · rw [if_neg hh]
        exact getHandler_eq_none _ EPOLLPRI (by decide) (by simpa using hh)
    · rw [show allEventTypes
          = [EPOLLIN, EPOLLOUT, EPOLLRDHUP, EPOLLPRI] ++ EPOLLERR :: [EPOLLHUP] from rfl,
        List.foldl_append, List.foldl_cons, hee,
        clearFold_getHandler_frame mask EPOLLERR (by decide) _ (by decide) (Or.inr (by decide)) _]
      by_cases hh : (List.foldl (fun m e =>
          if m.hasHandler (mask &&& e) then m.setHandler (mask &&& e) none else m)
          md [EPOLLIN, EPOLLOUT, EPOLLRDHUP, EPOLLPRI]).hasHandler EPOLLERR
      · rw [if_pos hh]
        exact getHandler_setHandler_self _ EPOLLERR none (by decide)
      · rw [if_neg hh]
        exact getHandler_eq_none _ EPOLLERR (by decide) (by simpa using hh)
    · rw [show allEventTypes
          = [EPOLLIN, EPOLLOUT, EPOLLRDHUP, EPOLLPRI, EPOLLERR] ++ EPOLLHUP :: [] from rfl,
        List.foldl_append, List.foldl_cons, hee]
      by_cases hh : (List.foldl (fun m e =>
          if m.hasHandler (mask &&& e) then m.setHandler (mask &&& e) none else m)
          md [EPOLLIN, EPOLLOUT, EPOLLRDHUP, EPOLLPRI, EPOLLERR]).hasHandler EPOLLHUP
      · rw [if_pos hh]
        exact getHandler_setHandler_self _ EPOLLHUP none (by decide)
      · rw [if_neg hh]
        exact getHandler_eq_none _ EPOLLHUP (by decide) (by simpa using hh)

/-! ## Claims C7 and C8 -/

/-- The registry entry `fd` holds after `addEventHandler(fd, mask, cb)` ran
on a state whose entry for `fd` was `md`: handlers installed, then the
kernel subscription reloaded. -/
def handlerAfterAdd {H : Type} (K : KernelCall → Bool) (st : Epoll H) (mask : Nat) (cb : H)
    (md : MonitoredDescriptor H) : MonitoredDescriptor H :=
  (Epoll.reloadEventHandlers K st.isEdgeTriggered (applyMaskHandlers mask cb md)).1

/-- The registry entry `fd` holds after `removeEventHandler(fd, mask)` ran
on a state whose entry for `fd` was `md`. -/
def handlerAfterRemove {H : Type} (K : KernelCall → Bool) (st : Epoll H) (mask : Nat)
    (md : MonitoredDescriptor H) : MonitoredDescriptor H :=
  (Epoll.reloadEventHandlers K st.isEdgeTriggered (clearMaskHandlers mask md)).1

/-- Claim C7: after `addEventHandler(fd, EPOLLIN|EPOLLOUT, cb)` on a
registered descriptor, both `hasHandler(EPOLLIN)` and `hasHandler(EPOLLOUT)`
hold and both categories resolve to the very callback `cb`; in general every
category present in the mask gets `cb` installed as its handler. -/
theorem claim_C7 {H : Type} (K : KernelCall → Bool) (st : Epoll H) (fd : Int)
    (md : MonitoredDescriptor H) (cb : H)
    (hl : lookupKey st.monitoredFds fd = some md) :
    (∀ mask, lookupKey ((Epoll.addEventHandler K st fd mask cb).state).monitoredFds fd
        = some (handlerAfterAdd K st mask cb md))
    ∧ (handlerAfterAdd K st (EPOLLIN ||| EPOLLOUT) cb md).hasHandler EPOLLIN = true
    ∧ (handlerAfterAdd K st (EPOLLIN ||| EPOLLOUT) cb md).hasHandler EPOLLOUT = true
    ∧ (handlerAfterAdd K st (EPOLLIN ||| EPOLLOUT) cb md).getHandler EPOLLIN = some cb
    ∧ (handlerAfterAdd K st (EPOLLIN ||| EPOLLOUT) cb md).getHandler EPOLLOUT = some cb
    ∧ (∀ mask evt, evt ∈ allEventTypes → mask &&& evt ≠ 0 →
        (handlerAfterAdd K st mask cb md).getHandler evt = some cb) := by
  have hgen : ∀ mask evt, evt ∈ allEventTypes → mask &&& evt ≠ 0 →
      (handlerAfterAdd K st mask cb md).getHandler evt = some cb := by
    intro mask evt hmem hmask
    unfold handlerAfterAdd
    rw [reload_getHandler, applyMask_getHandler mask cb md evt hmem, if_neg hmask]
  refine ⟨?_, ?_, ?_, ?_, ?_, hgen⟩
  · intro mask
    rw [addEventHandler_some K st fd mask cb md hl]
    exact lookupKey_updateKey st.monitoredFds fd md _ hl
  · rw [hasHandler_eq_isSome _ EPOLLIN (by decide),
      hgen (EPOLLIN ||| EPOLLOUT) EPOLLIN (by decide) (by decide)]
    rfl
  · rw [hasHandler_eq_isSome _ EPOLLOUT (by decide),
      hgen (EPOLLIN ||| EPOLLOUT) EPOLLOUT (by decide) (by decide)]
    rfl
  · exact hgen (EPOLLIN ||| EPOLLOUT) EPOLLIN (by decide) (by decide)
  · exact hgen (EPOLLIN ||| EPOLLOUT) EPOLLOUT (by decide) (by decide)

/-- Registry with the bare descriptor 4, used by the C7 and C8 witnesses. -/
def stReg4 : Epoll Act := ⟨[((4 : Int), { monitoredFd := 4 })], false⟩

/-- Witness for C7 at concrete inputs. -/
theorem claim_C7_witness :
    lookupKey ((Epoll.addEventHandler (fun _ => true) stReg4 4 (EPOLLIN ||| EPOLLOUT)
        Act.nop).state).monitoredFds 4
      = some (handlerAfterAdd (fun _ => true) stReg4 (EPOLLIN ||| EPOLLOUT) Act.nop
          { monitoredFd := 4 })
    ∧ (handlerAfterAdd (fun _ => true) stReg4 (EPOLLIN ||| EPOLLOUT) Act.nop
        { monitoredFd := 4 }).hasHandler EPOLLIN = true
    ∧ (handlerAfterAdd (fun _ => true) stReg4 (EPOLLIN ||| EPOLLOUT) Act.nop
        { monitoredFd := 4 }).hasHandler EPOLLOUT = true
    ∧ (handlerAfterAdd (fun _ => true) stReg4 (EPOLLIN ||| EPOLLOUT) Act.nop
        { monitoredFd := 4 }).getHandler EPOLLIN = some Act.nop
    ∧ (handlerAfterAdd (fun _ => true) stReg4 (EPOLLIN ||| EPOLLOUT) Act.nop
        { monitoredFd := 4 }).getHandler EPOLLOUT = some Act.nop
    ∧ (handlerAfterAdd (fun _ => true) stReg4 EPOLLPRI Act.nop
        { monitoredFd := 4 }).getHandler EPOLLPRI = some Act.nop := by
  have h := claim_C7 (fun _ => true) stReg4 4 { monitoredFd := 4 } Act.nop rfl
  exact ⟨h.1 (EPOLLIN ||| EPOLLOUT), h.2.1, h.2.2.1, h.2.2.2.1, h.2.2.2.2.1,
    h.2.2.2.2.2 EPOLLPRI EPOLLPRI (by decide) (by decide)⟩

/-- Claim C8: `removeEventHandler(fd, mask)` clears exactly the handler
slots of the categories in the mask and leaves every slot outside the mask
unchanged; in the concrete scenario, after `addEventHandler(fd,
EPOLLIN|EPOLLOUT, cb)` followed by `removeEventHandler(fd, EPOLLIN)`, the
readable handler is gone while the writable one survives. -/
theorem claim_C8 {H : Type} (K : KernelCall → Bool) (st : Epoll H) (fd : Int)
    (md : MonitoredDescriptor H) (cb : H)
    (hl : lookupKey st.monitoredFds fd = some md) :
    (∀ mask evt, evt ∈ allEventTypes → mask &&& evt ≠ 0 →
        (clearMaskHandlers mask md).getHandler evt = none)
    ∧ (∀ mask evt, evt ∈ allEventTypes → mask &&& evt = 0 →
        (clearMaskHandlers mask md).getHandler evt = md.getHandler evt)
    ∧ (∀ mask, lookupKey ((Epoll.removeEventHandler K st fd mask).state).monitoredFds fd
        = some (handlerAfterRemove K st mask md))
    ∧ (lookupKey ((Epoll.removeEventHandler K
          ((Epoll.addEventHandler K st fd (EPOLLIN ||| EPOLLOUT) cb).state) fd
          EPOLLIN).state).monitoredFds fd
        = some (handlerAfterRemove K
            ((Epoll.addEventHandler K st fd (EPOLLIN ||| EPOLLOUT) cb).state) EPOLLIN
            (handlerAfterAdd K st (EPOLLIN ||| EPOLLOUT) cb md))
      ∧ (handlerAfterRemove K
          ((Epoll.addEventHandler K st fd (EPOLLIN ||| EPOLLOUT) cb).state) EPOLLIN
          (handlerAfterAdd K st (EPOLLIN ||| EPOLLOUT) cb md)).hasHandler EPOLLIN = false
      ∧ (handlerAfterRemove K
          ((Epoll.addEventHandler K st fd (EPOLLIN ||| EPOLLOUT) cb).state) EPOLLIN
          (handlerAfterAdd K st (EPOLLIN ||| EPOLLOUT) cb md)).hasHandler EPOLLOUT
            = true) := by
  refine ⟨?_, ?_, ?_, ?_, ?_, ?_⟩
  · intro mask evt hmem hmask
    rw [clearMask_getHandler mask md evt hmem, if_neg hmask]
  · intro mask evt hmem hmask
    rw [clearMask_getHandler mask md evt hmem, if_pos hmask]
  · intro mask
    rw [removeEventHandler_some K st fd mask md hl]
    exact lookupKey_updateKey st.monitoredFds fd md _ hl
  · have hl1 : lookupKey ((Epoll.addEventHandler K st fd (EPOLLIN ||| EPOLLOUT)
        cb).state).monitoredFds fd = some (handlerAfterAdd K st (EPOLLIN ||| EPOLLOUT) cb md) := by
      rw [addEventHandler_some K st fd (EPOLLIN ||| EPOLLOUT) cb md hl]
      exact lookupKey_updateKey st.monitoredFds fd md _ hl
    rw [removeEventHandler_some K _ fd EPOLLIN _ hl1]
    exact lookupKey_updateKey _ fd _ _ hl1
  · unfold handlerAfterRemove
    rw [reload_hasHandler, hasHandler_eq_isSome _ EPOLLIN (by decide),
      clearMask_getHandler EPOLLIN _ EPOLLIN (by decide), if_neg (by decide)]
    rfl
  · unfold handlerAfterRemove
    rw [reload_hasHandler, hasHandler_eq_isSome _ EPOLLOUT (by decide),
      clearMask_getHandler EPOLLIN _ EPOLLOUT (by decide), if_pos (by decide)]
    unfold handlerAfterAdd
    rw [reload_getHandler, applyMask_getHandler (EPOLLIN ||| EPOLLOUT) cb md EPOLLOUT (by decide),
      if_neg (by decide)]
    rfl

/-- Witness for C8 at concrete inputs. -/
theorem claim_C8_witness :
    (clearMaskHandlers EPOLLIN ({ monitoredFd := 4 } : MonitoredDescriptor Act)).getHandler
        EPOLLIN = none
    ∧ (clearMaskHandlers EPOLLIN ({ monitoredFd := 4 } : MonitoredDescriptor Act)).getHandler
        EPOLLOUT = ({ monitoredFd := 4 } : MonitoredDescriptor Act).getHandler EPOLLOUT
    ∧ lookupKey ((Epoll.removeEventHandler (fun _ => true) stReg4 4
        EPOLLIN).state).monitoredFds 4
      = some (handlerAfterRemove (fun _ => true) stReg4 EPOLLIN { monitoredFd := 4 })
    ∧ (handlerAfterRemove (fun _ => true)
        ((Epoll.addEventHandler (fun _ => true) stReg4 4 (EPOLLIN ||| EPOLLOUT)
          Act.nop).state) EPOLLIN
        (handlerAfterAdd (fun _ => true) stReg4 (EPOLLIN ||| EPOLLOUT) Act.nop
          { monitoredFd := 4 })).hasHandler EPOLLIN = false
    ∧ (handlerAfterRemove (fun _ => true)
        ((Epoll.addEventHandler (fun _ => true) stReg4 4 (EPOLLIN ||| EPOLLOUT)
          Act.nop).state) EPOLLIN
        (handlerAfterAdd (fun _ => true) stReg4 (EPOLLIN ||| EPOLLOUT) Act.nop
          { monitoredFd := 4 })).hasHandler EPOLLOUT = true := by
  have h := claim_C8 (fun _ => true) stReg4 4 { monitoredFd := 4 } Act.nop rfl
  exact ⟨h.1 EPOLLIN EPOLLIN (by decide) (by decide),
    h.2.1 EPOLLIN EPOLLOUT (by decide) (by decide),
    h.2.2.1 EPOLLIN, h.2.2.2.2.1, h.2.2.2.2.2⟩

/-! ## Claim C9 -/

/-- Claim C9: removing descriptor `fd` and re-adding it yields a fresh entry
whose `isInitialized` flag is `false`, so the next kernel subscription issued
for `fd` (here: by the next `addEventHandler`) is a single `EPOLL_CTL_ADD`
call — never a modify. -/
theorem claim_C9 {H : Type} (K K' : KernelCall → Bool) (st : Epoll H) (fd : Int)
    (mask : Nat) (cb : H) :
    lookupKey ((Epoll.addDescriptor K' ((st.removeDescriptor fd).1) fd).state).monitoredFds fd
      = some (MonitoredDescriptor.new H fd)
    ∧ (MonitoredDescriptor.new H fd).isInitialized = false
    ∧ (Epoll.addEventHandler K
        ((Epoll.addDescriptor K' ((st.removeDescriptor fd).1) fd).state) fd mask cb).calls
      = [KernelCall.ctlAdd fd (reloadMask
          ((Epoll.addDescriptor K' ((st.removeDescriptor fd).1) fd).state).isEdgeTriggered
          (applyMaskHandlers mask cb (MonitoredDescriptor.new H fd)))] := by
  have hgone : lookupKey ((st.removeDescriptor fd).1).monitoredFds fd = none :=
    lookupKey_removeDescriptor st fd
  have hnc : containsKey ((st.removeDescriptor fd).1).monitoredFds fd = false := by
    unfold containsKey
    rw [hgone]
    rfl
  have hlook : lookupKey ((Epoll.addDescriptor K'
      ((st.removeDescriptor fd).1) fd).state).monitoredFds fd
      = some (MonitoredDescriptor.new H fd) := by
    rw [addDescriptor_state, tryEmplace_of_not_contains _ fd hnc]
    exact lookupKey_append_absent _ fd _ hgone
  refine ⟨hlook, rfl, ?_⟩
  rw [addEventHandler_some K _ fd mask cb (MonitoredDescriptor.new H fd) hlook]
  have hcalls := reload_calls K
    ((Epoll.addDescriptor K' ((st.removeDescriptor fd).1) fd).state).isEdgeTriggered
    (applyMaskHandlers mask cb (MonitoredDescriptor.new H fd))
  have hinit : (applyMaskHandlers mask cb (MonitoredDescriptor.new H fd)).isInitialized
      = false := by
    rw [applyMask_isInitialized]
    rfl
  have hfd : (applyMaskHandlers mask cb (MonitoredDescriptor.new H fd)).monitoredFd = fd := by
    rw [applyMask_monitoredFd]
    rfl
  have hcall : reloadCall
      ((Epoll.addDescriptor K' ((st.removeDescriptor fd).1) fd).state).isEdgeTriggered
      (applyMaskHandlers mask cb (MonitoredDescriptor.new H fd))
      = KernelCall.ctlAdd fd (reloadMask
          ((Epoll.addDescriptor K' ((st.removeDescriptor fd).1) fd).state).isEdgeTriggered
          (applyMaskHandlers mask cb (MonitoredDescriptor.new H fd))) := by
    unfold reloadCall
    rw [if_neg (by rw [hinit]; exact Bool.false_ne_true), hfd]
  rw [← hcall]
  exact hcalls

/-! ## Claim C10 -/

/-- Claim C10: for any `eventType` that is not exactly one of the six single
category flags — zero, a union of two flags, anything else —
`MonitoredDescriptor::hasHandler` answers `false` (even if every contained
flag has a handler) and `MonitoredDescriptor::setHandler` leaves all six
slots, indeed the whole entry, unchanged: both switches fall through to
their default branch (Epoll.cpp 199-200, 224-225). -/
theorem claim_C10 {H : Type} (md : MonitoredDescriptor H) (x : Nat) (oh : Option H)
    (hx : x ∉ allEventTypes) :
    md.hasHandler x = false ∧ md.setHandler x oh = md := by
  have h6 : ¬(x = EPOLLIN ∨ x = EPOLLOUT ∨ x = EPOLLRDHUP ∨ x = EPOLLPRI ∨ x = EPOLLERR
      ∨ x = EPOLLHUP) := by
    intro hor
    apply hx
    rcases hor with rfl | rfl | rfl | rfl | rfl | rfl <;> decide
  push_neg at h6
  obtain ⟨h1, h2, h3, h4, h5, h6'⟩ := h6
  constructor
  · unfold MonitoredDescriptor.hasHandler
    rw [if_neg h1, if_neg h2, if_neg h3, if_neg h4, if_neg h5, if_neg h6']
  · unfold MonitoredDescriptor.setHandler
    rw [if_neg h1, if_neg h2, if_neg h3, if_neg h4, if_neg h5, if_neg h6']

/-- Entry with a handler installed in all six categories, for the C10
witness. -/
def mdC10 : MonitoredDescriptor Act :=
  { monitoredFd := 0, IN_handler := some .nop, OUT_handler := some .nop,
    RDHUP_handler := some .nop, PRI_handler := some .nop, ERR_handler := some .nop,
    HUP_handler := some .nop }

/-- Witness for C10 at a concrete input: the union `EPOLLIN|EPOLLOUT` on an
entry whose every category has a handler. -/
theorem claim_C10_witness :
    mdC10.hasHandler (EPOLLIN ||| EPOLLOUT) = false
    ∧ mdC10.setHandler (EPOLLIN ||| EPOLLOUT) (some Act.nop) = mdC10 :=
  claim_C10 mdC10 (EPOLLIN ||| EPOLLOUT) (some Act.nop) (by decide)
